import Mathlib

/-!
# Verification of the AndroidLibXrayLite binding layer

Shallow embedding of the two lifecycle-controller variants of the
repository (`V2RayPoint` in `libv2ray_main.go` and `CoreController` in the
second source file), the keyed simple-instance API (`StartSimple` /
`StopSimple`, named `StartSimpleV2RayPoint` / `StopSimpleV2RayPoint` in the
first variant), the latency probe `measureInstDelay`, the version queries
`CheckVersionX` / `CheckVersion`, and the asset-fallback file reader
installed by `InitV2Env` / `InitCoreEnv`.

The wrapped xray-core engine is external to the repository.  Its fallible
calls (`os.Open`, `serial.LoadJSONConfig`, `core.New`, `Instance.Start`)
are modelled by an environment record `StartEnv` holding each call's
result; engine instances are identified by natural-number ids.  The mutex
around `StartLoop` / `StopLoop` makes each call atomic from the caller's
point of view, so a call is modelled as a pure state transformer.
Observable side effects (status notifications, `Prepare`/`Setup`
callbacks, config loads, instance constructions and closes, environment
variables) are threaded through explicit effect records.
-/

/-- Results of the four external calls a single start attempt makes, in
source order: `os.Open(ConfigureFile)`, `serial.LoadJSONConfig(file)`,
`core.New(config)` (yielding an instance id), `instance.Start()`.
`Except.error` carries the Go error's message. -/
structure StartEnv where
  openRes : Except String Unit
  parseRes : Except String Unit
  newRes : Except String Nat
  startRes : Except String Unit
deriving Repr

/-- The phase at which a start attempt fails, per the error taxonomy:
config load (file open or JSON parse), core init, startup. -/
inductive Phase where
  | configLoad
  | coreInit
  | startup
deriving DecidableEq, Repr

/-- First failing phase of a start attempt, `none` if every call succeeds
(mirrors the early-return structure of `pointloop` / `doStartLoop`). -/
def failPhase (e : StartEnv) : Option Phase :=
  match e.openRes with
  | .error _ => some Phase.configLoad
  | .ok _ =>
    match e.parseRes with
    | .error _ => some Phase.configLoad
    | .ok _ =>
      match e.newRes with
      | .error _ => some Phase.coreInit
      | .ok _ =>
        match e.startRes with
        | .error _ => some Phase.startup
        | .ok _ => none

/-- Error-message tag `doStartLoop` wraps around each phase's error
(`fmt.Errorf("config error: %w", ...)` etc.). -/
def phaseTag : Phase → String
  | Phase.configLoad => "config error: "
  | Phase.coreInit => "core init failed: "
  | Phase.startup => "startup failed: "

/-- A start attempt succeeds outright when no phase fails. -/
def StartEnv.succeeds (e : StartEnv) : Bool := (failPhase e).isNone

/-! ## V2RayPoint variant (`libv2ray_main.go`) -/

/-- `V2RayPoint` controller state: running flag, engine instance reference
`Vpoint` (`*core.Instance`, an id or nil), borrowed stats manager.
`SupportSet` and the protected dialer are host callbacks, modelled as
effects. -/
structure V2RayPoint where
  IsRunning : Bool
  Vpoint : Option Nat
  statsManager : Option Nat
  ConfigureFile : String
deriving DecidableEq, Repr

/-- Observable side effects of `V2RayPoint` operations: `OnEmitStatus`
notifications (code, message) in emission order, counts of `Prepare` and
`Setup` callbacks, number of config-load attempts (`os.Open` calls),
instance ids passed to `core.New` successfully, instance ids closed. -/
structure VEffects where
  emitted : List (Int × String)
  prepares : Nat
  setups : Nat
  configLoads : Nat
  created : List Nat
  closed : List Nat
deriving DecidableEq, Repr

/-- The empty effect log. -/
def VEffects.init : VEffects :=
  { emitted := [], prepares := 0, setups := 0, configLoads := 0
    created := [], closed := [] }

/-- `pointloop`: open the config file, parse it, construct the instance
(`v.Vpoint, err = v2core.New(config)`, with `v.Vpoint = nil` on error),
capture the stats manager, set `IsRunning`, start the instance (resetting
`IsRunning` on failure), and on full success call `Prepare`, `Setup("")`
and `OnEmitStatus(0, "Running")`.  Errors are returned unwrapped. -/
def V2RayPoint.pointloop (env : StartEnv) (v : V2RayPoint) (fx : VEffects) :
    V2RayPoint × VEffects × Option String :=
  let fx := { fx with configLoads := fx.configLoads + 1 }
  match env.openRes with
  | .error e => (v, fx, some e)
  | .ok _ =>
    match env.parseRes with
    | .error e => (v, fx, some e)
    | .ok _ =>
      match env.newRes with
      | .error e => ({ v with Vpoint := none }, fx, some e)
      | .ok inst =>
        let v := { v with Vpoint := some inst, statsManager := some inst }
        let fx := { fx with created := fx.created ++ [inst] }
        let v := { v with IsRunning := true }
        match env.startRes with
        | .error e => ({ v with IsRunning := false }, fx, some e)
        | .ok _ =>
          (v, { fx with
                  prepares := fx.prepares + 1
                  setups := fx.setups + 1
                  emitted := fx.emitted ++ [((0 : Int), "Running")] }, none)

/-- `RunLoop`: under the mutex, call `pointloop` only when not running;
otherwise return a nil error with nothing changed. -/
def V2RayPoint.RunLoop (env : StartEnv) (v : V2RayPoint) (fx : VEffects) :
    V2RayPoint × VEffects × Option String :=
  if !v.IsRunning then V2RayPoint.pointloop env v fx else (v, fx, none)

/-- `shutdownInit`: clear the running flag, close `Vpoint` (modelled by
logging its id; the Go code calls `v.Vpoint.Close()` unconditionally),
release the instance reference and the stats manager. -/
def V2RayPoint.shutdownInit (v : V2RayPoint) (fx : VEffects) :
    V2RayPoint × VEffects :=
  ({ v with IsRunning := false, Vpoint := none, statsManager := none },
   { fx with closed := fx.closed ++ v.Vpoint.toList })

/-- `StopLoop`: under the mutex, when running call `shutdownInit` and emit
`OnEmitStatus(0, "Closed")`; otherwise do nothing. -/
def V2RayPoint.StopLoop (v : V2RayPoint) (fx : VEffects) :
    V2RayPoint × VEffects :=
  if v.IsRunning then
    let r := V2RayPoint.shutdownInit v fx
    (r.1, { r.2 with emitted := r.2.emitted ++ [((0 : Int), "Closed")] })
  else (v, fx)

/-- `NewV2RayPoint` returns a fresh controller (zero-valued flag and
references; log-handler and dialer registration are process-global). -/
def V2RayPoint.new : V2RayPoint :=
  { IsRunning := false, Vpoint := none, statsManager := none
    ConfigureFile := "" }

/-! ## CoreController variant (second source file) -/

/-- `CoreController` state: config path, running flag, engine instance
reference, borrowed stats manager. -/
structure CoreController where
  ConfigureFile : String
  IsRunning : Bool
  coreInstance : Option Nat
  statsManager : Option Nat
deriving DecidableEq, Repr

/-- Observable side effects of `CoreController` operations: process
environment variables written by `setEnvVariable`, config-load attempts,
instances constructed, instances closed. -/
structure CEffects where
  envVars : List (String × String)
  configLoads : Nat
  created : List Nat
  closed : List Nat
deriving DecidableEq, Repr

/-- The empty `CoreController` effect log. -/
def CEffects.init : CEffects :=
  { envVars := [], configLoads := 0, created := [], closed := [] }

/-- Key under which `StartLoop` publishes the TUN file descriptor. -/
def tunFdKey : String := "xray.tun.fd"

/-- `setEnvVariable`: overwrite-or-append a process environment variable
(`os.Setenv`; its error is only logged). -/
def setEnvVariable (key value : String) (fx : CEffects) : CEffects :=
  { fx with envVars := (fx.envVars.filter (fun p => p.1 ≠ key)) ++ [(key, value)] }

/-- `doStartLoop`: like `pointloop` but each phase's error is wrapped with
a phase tag, and there are no host callbacks.  On `core.New` failure the
Go multiple-assignment leaves `x.coreInstance = nil`. -/
def CoreController.doStartLoop (env : StartEnv) (x : CoreController)
    (fx : CEffects) : CoreController × CEffects × Option String :=
  let fx := { fx with configLoads := fx.configLoads + 1 }
  match env.openRes with
  | .error e => (x, fx, some ("config error: " ++ e))
  | .ok _ =>
    match env.parseRes with
    | .error e => (x, fx, some ("config error: " ++ e))
    | .ok _ =>
      match env.newRes with
      | .error e => ({ x with coreInstance := none }, fx,
                     some ("core init failed: " ++ e))
      | .ok inst =>
        let x := { x with coreInstance := some inst, statsManager := some inst }
        let fx := { fx with created := fx.created ++ [inst] }
        let x := { x with IsRunning := true }
        match env.startRes with
        | .error e => ({ x with IsRunning := false }, fx,
                       some ("startup failed: " ++ e))
        | .ok _ => (x, fx, none)

/-- `StartLoop`: under the mutex, publish the TUN fd to the process
environment, then return nil if already running, else run `doStartLoop`. -/
def CoreController.StartLoop (env : StartEnv) (tunFd : Int)
    (x : CoreController) (fx : CEffects) :
    CoreController × CEffects × Option String :=
  let fx := setEnvVariable tunFdKey (toString tunFd) fx
  if x.IsRunning then (x, fx, none)
  else CoreController.doStartLoop env x fx

/-- `doShutdown`: close the instance when non-nil, release the reference,
clear the running flag and the stats manager. -/
def CoreController.doShutdown (x : CoreController) (fx : CEffects) :
    CoreController × CEffects :=
  let fx :=
    match x.coreInstance with
    | some i => { fx with closed := fx.closed ++ [i] }
    | none => fx
  ({ x with coreInstance := none, IsRunning := false, statsManager := none }, fx)

/-- `StopLoop`: under the mutex, call `doShutdown` only when running. -/
def CoreController.StopLoop (x : CoreController) (fx : CEffects) :
    CoreController × CEffects :=
  if x.IsRunning then CoreController.doShutdown x fx else (x, fx)

/-- `NewCoreController` returns a controller with `IsRunning := false`
and zero-valued references. -/
def CoreController.new : CoreController :=
  { ConfigureFile := "", IsRunning := false, coreInstance := none
    statsManager := none }

/-! ## Keyed simple-instance API (`StartSimple`/`StopSimple`, identical in
the first variant as `StartSimpleV2RayPoint`/`StopSimpleV2RayPoint`) -/

/-- External-call results for one `StartSimple` invocation: `os.Open`,
`LoadJSONConfig`, `core.New` (the id of the instance it would construct is
drawn from the state's fresh counter), and whether `instance.Start()`
succeeds — its error value is discarded by the code. -/
structure SimpleEnv where
  openRes : Except String Unit
  parseRes : Except String Unit
  newOk : Except String Unit
  startOk : Bool
deriving Repr

/-- Process-wide state of the keyed API: `pingMap` (the `sync.Map` from
`int32` keys to instances, modelled as a partial map to instance ids), a
fresh-id counter for `core.New`, and logs of which instance ids have had
`Start`, a failed `Start`, and `Close` invoked on them. -/
structure SimpleState where
  pingMap : Int → Option Nat
  nextInst : Nat
  started : List Nat
  startFailed : List Nat
  closed : List Nat

/-- Initial keyed-API state: empty `pingMap`, no instances yet. -/
def SimpleState.init : SimpleState :=
  { pingMap := fun _ => none, nextInst := 0, started := [], startFailed := []
    closed := [] }

/-- `StartSimple(configFile, key)`: open and parse the config, construct
an instance, call `instance.Start()` ignoring its error, then
`pingMap.LoadOrStore(key, instance)`; if the key was already present
return the error `"point already exist"` (leaving the new instance
started and untracked), else store it and return nil. -/
def StartSimple (env : SimpleEnv) (key : Int) (s : SimpleState) :
    SimpleState × Option String :=
  match env.openRes with
  | .error e => (s, some e)
  | .ok _ =>
    match env.parseRes with
    | .error e => (s, some e)
    | .ok _ =>
      match env.newOk with
      | .error e => (s, some e)
      | .ok _ =>
        let inst := s.nextInst
        let s := { s with
                     nextInst := inst + 1
                     started := s.started ++ [inst]
                     startFailed :=
                       if env.startOk then s.startFailed
                       else s.startFailed ++ [inst] }
        match s.pingMap key with
        | some _ => (s, some "point already exist")
        | none =>
          ({ s with pingMap := fun k => if k = key then some inst else s.pingMap k },
           none)

/-- `StopSimple(key)`: `pingMap.LoadAndDelete(key)`; when an instance was
present, close it.  No error is ever reported. -/
def StopSimple (key : Int) (s : SimpleState) : SimpleState :=
  match s.pingMap key with
  | some i =>
    { s with
        pingMap := fun k => if k = key then none else s.pingMap k
        closed := s.closed ++ [i] }
  | none => s

/-- `StartSimpleV2RayPoint` of the first variant is the same code. -/
def StartSimpleV2RayPoint : SimpleEnv → Int → SimpleState → SimpleState × Option String :=
  StartSimple

/-- `StopSimpleV2RayPoint` of the first variant is the same code. -/
def StopSimpleV2RayPoint : Int → SimpleState → SimpleState :=
  StopSimple

/-! ## Latency probe (`measureInstDelay`) -/

/-- Outcome of the HTTP GET issued through the instance: a transport /
dial / timeout failure with an error message, or a response with a status
code and the elapsed time in milliseconds (elapsed wall time is
non-negative). -/
inductive HttpResult where
  | failure (e : String)
  | response (status : Nat) (elapsedMs : Nat)
deriving DecidableEq, Repr

/-- Probe URL used when the caller passes an empty string. -/
def defaultPingUrl : String := "https://www.google.com/generate_204"

/-- `if len(url) <= 0 { url = "https://www.google.com/generate_204" }`. -/
def effectiveUrl (url : String) : String :=
  if url.length ≤ 0 then defaultPingUrl else url

/-- What one probe call does to its caller: a normal return of the
`(int64, error)` pair, or a runtime crash (Go nil-pointer-dereference
panic). -/
inductive ProbeOutcome where
  | ret (ms : Int) (err : Option String)
  | crash
deriving DecidableEq, Repr

/-- `measureInstDelay(ctx, inst, url)`: error out on a nil instance;
default the URL, then `req, _ := http.NewRequestWithContext(ctx, "GET",
url, nil)` — the construction error is DISCARDED, so when the URL does
not parse (`reqOk` models `url.Parse` accepting it) `req` is nil and the
subsequent `c.Do(req)` dereferences the nil request inside `Client.do`
(`req.URL`), a runtime panic.  With a well-formed URL the GET (client
built over `core.Dial`, modelled by the oracle `http` applied to the
effective URL) returns `(-1, err)` on transport failure,
`(-1, "status != 20x: ...")` on any status other than 200/204, and the
elapsed milliseconds with a nil error otherwise. -/
def measureInstDelay (inst : Option Nat) (url : String)
    (reqOk : String → Bool) (http : String → HttpResult) : ProbeOutcome :=
  match inst with
  | none => ProbeOutcome.ret (-1) (some "core instance nil")
  | some _ =>
    if reqOk (effectiveUrl url) then
      match http (effectiveUrl url) with
      | HttpResult.failure e => ProbeOutcome.ret (-1) (some e)
      | HttpResult.response st ms =>
        if st ≠ 200 ∧ st ≠ 204 then
          ProbeOutcome.ret (-1) (some ("status != 20x: " ++ toString st))
        else ProbeOutcome.ret (ms : Int) none
    else ProbeOutcome.crash

/-- The GET produced a response with status 200 or 204. -/
def HttpResult.isGood : HttpResult → Bool
  | HttpResult.response st _ => st == 200 || st == 204
  | HttpResult.failure _ => false

/-! ## Version queries -/

/-- `CheckVersionX` of the first variant:
`fmt.Sprintf("Lib v%d, Xray-core v%s", 27, v2core.Version())`, as a
function of the engine's version string. -/
def CheckVersionX (coreVersion : String) : String :=
  "Lib v27, Xray-core v" ++ coreVersion

/-- `CheckVersion` of the second variant:
`fmt.Sprintf("Xray-core v%s", core.Version())`. -/
def CheckVersion (coreVersion : String) : String :=
  "Xray-core v" ++ coreVersion

/-- Substring test on character lists, used to state "contains". -/
def strContains (needle hay : List Char) : Bool :=
  match hay with
  | [] => needle == []
  | _ :: t => needle.isPrefixOf hay || strContains needle t

/-! ## Asset-fallback file reader (`InitV2Env` / `InitCoreEnv`) -/

/-- The open call the installed `NewFileReader` hook performs. -/
inductive OpenCall where
  | assetOpen (name : String)
  | osOpen (path : String)
deriving DecidableEq, Repr

/-- Second component of Go's `filepath.Split(path)`: everything after the
final `'/'` separator (the whole path when it has no separator). -/
def baseName (path : String) : String :=
  String.mk ((path.data.reverse.takeWhile (fun c => c ≠ '/')).reverse)

/-- The file-reader hook installed by `InitV2Env` / `InitCoreEnv`: when
`os.Stat(path)` reports not-exist, open the gomobile asset named by the
base name of the path; otherwise `os.Open(path)`.  `statNotExist`
models `os.IsNotExist(err)` for the path's stat error. -/
def newFileReader (statNotExist : String → Bool) (path : String) : OpenCall :=
  if statNotExist path then OpenCall.assetOpen (baseName path)
  else OpenCall.osOpen path

/-! ## Concrete inputs used by witnesses -/

/-- A start environment in which all four external calls succeed. -/
def envOkW : StartEnv :=
  { openRes := Except.ok (), parseRes := Except.ok ()
    newRes := Except.ok 0, startRes := Except.ok () }

/-- A start environment failing only at `instance.Start()`. -/
def envStartFailW : StartEnv :=
  { openRes := Except.ok (), parseRes := Except.ok ()
    newRes := Except.ok 0, startRes := Except.error "bind: address in use" }

/-- A `V2RayPoint` in the running state holding instance 0. -/
def vRunningW : V2RayPoint :=
  { IsRunning := true, Vpoint := some 0, statsManager := some 0
    ConfigureFile := "config.json" }

/-- A `CoreController` in the running state holding instance 0. -/
def xRunningW : CoreController :=
  { ConfigureFile := "config.json", IsRunning := true
    coreInstance := some 0, statsManager := some 0 }

/-! ## Lifecycle traces -/

/-- One serialized call on a `CoreController` (the mutex serializes calls,
so a trace is a list of calls): a Start attempt with its external-call
results and TUN fd, or a Stop. -/
inductive COp where
  | start (env : StartEnv) (tunFd : Int)
  | stop

/-- Effect of one call on the controller-and-effects state. -/
def cStep (op : COp) (s : CoreController × CEffects) :
    CoreController × CEffects :=
  match op with
  | COp.start env fd =>
    let r := CoreController.StartLoop env fd s.1 s.2
    (r.1, r.2.1)
  | COp.stop => CoreController.StopLoop s.1 s.2

/-- State after a trace of calls on a freshly constructed controller. -/
def cRun (ops : List COp) : CoreController × CEffects :=
  ops.foldl (fun t op => cStep op t) (CoreController.new, CEffects.init)

/-- One serialized call on a `V2RayPoint`. -/
inductive VOp where
  | start (env : StartEnv)
  | stop

/-- Effect of one call on the `V2RayPoint`-and-effects state. -/
def vStep (op : VOp) (s : V2RayPoint × VEffects) : V2RayPoint × VEffects :=
  match op with
  | VOp.start env =>
    let r := V2RayPoint.RunLoop env s.1 s.2
    (r.1, r.2.1)
  | VOp.stop => V2RayPoint.StopLoop s.1 s.2

/-- State after a trace of calls on a fresh `V2RayPoint`. -/
def vRun (ops : List VOp) : V2RayPoint × VEffects :=
  ops.foldl (fun t op => vStep op t) (V2RayPoint.new, VEffects.init)

/-- Concrete HTTP oracle answering 204 in 42 ms to every URL. -/
def pingOkW : String → HttpResult := fun _ => HttpResult.response 204 42

/-- Concrete request-construction oracle: `url.Parse` (and hence
`http.NewRequestWithContext`) rejects URLs containing ASCII control
characters, and accepts the probe URLs used here otherwise. -/
def reqOkW : String → Bool :=
  fun u => !(u.data.any (fun c => c.toNat < 32 || c.toNat == 127))

/-- A concrete keyed-API state: key 7 maps to instance 3, four instances
allocated so far, none closed. -/
def sDupW : SimpleState :=
  { pingMap := fun k => if k = 7 then some 3 else none
    nextInst := 4, started := [3], startFailed := [], closed := [] }

/-- A fully succeeding `SimpleEnv`. -/
def simpleOkW : SimpleEnv :=
  { openRes := Except.ok (), parseRes := Except.ok ()
    newOk := Except.ok (), startOk := true }

/-- A `SimpleEnv` whose config loads and instance constructs, but whose
`instance.Start()` fails. -/
def simpleStartFailW : SimpleEnv :=
  { openRes := Except.ok (), parseRes := Except.ok ()
    newOk := Except.ok (), startOk := false }

/-! ## Claim theorems -/

/-- C3: calling Start while the running flag is already true is an
idempotent no-op: it returns a nil error, performs no config load and
constructs no second instance, leaves the controller state (and the
notification log) unchanged — in both variants. -/
theorem startWhileRunningIsNoOp (env e2 : StartEnv) (v : V2RayPoint)
    (fv : VEffects) (x : CoreController) (fx : CEffects) (tunFd : Int)
    (hv : v.IsRunning = true) (hx : x.IsRunning = true) :
    V2RayPoint.RunLoop env v fv = (v, fv, none) ∧
    (CoreController.StartLoop e2 tunFd x fx).1 = x ∧
    (CoreController.StartLoop e2 tunFd x fx).2.2 = none ∧
    (CoreController.StartLoop e2 tunFd x fx).2.1.configLoads = fx.configLoads ∧
    (CoreController.StartLoop e2 tunFd x fx).2.1.created = fx.created := by
  refine ⟨?_, ?_, ?_, ?_, ?_⟩ <;>
    simp [V2RayPoint.RunLoop, CoreController.StartLoop, setEnvVariable, hv, hx]

/-- Witness for C3 at a concrete running controller. -/
theorem startWhileRunningIsNoOp_witness :
    V2RayPoint.RunLoop envOkW vRunningW VEffects.init =
      (vRunningW, VEffects.init, none) ∧
    (CoreController.StartLoop envOkW 3 xRunningW CEffects.init).1 = xRunningW := by
  have h := startWhileRunningIsNoOp envOkW envOkW vRunningW VEffects.init
    xRunningW CEffects.init 3 rfl rfl
  exact ⟨h.1, h.2.1⟩

/-- C4: Stop on a running controller shuts the engine down, releases the
instance reference and the stats capability, clears the flag, and (in the
VPN-integrated variant) emits a "Closed" notification; Stop on a stopped
controller changes nothing and emits nothing. -/
theorem stopReleasesOrNoOp (v : V2RayPoint) (fv : VEffects)
    (x : CoreController) (fx : CEffects) :
    (v.IsRunning = true →
      V2RayPoint.StopLoop v fv =
        ({ v with IsRunning := false, Vpoint := none, statsManager := none },
         { fv with closed := fv.closed ++ v.Vpoint.toList
                   emitted := fv.emitted ++ [((0 : Int), "Closed")] })) ∧
    (v.IsRunning = false → V2RayPoint.StopLoop v fv = (v, fv)) ∧
    (x.IsRunning = true →
      CoreController.StopLoop x fx =
        ({ x with IsRunning := false, coreInstance := none, statsManager := none },
         { fx with closed := fx.closed ++ x.coreInstance.toList })) ∧
    (x.IsRunning = false → CoreController.StopLoop x fx = (x, fx)) := by
  refine ⟨fun h => ?_, fun h => ?_, fun h => ?_, fun h => ?_⟩
  · simp [V2RayPoint.StopLoop, V2RayPoint.shutdownInit, h]
  · simp [V2RayPoint.StopLoop, h]
  · cases hc : x.coreInstance <;>
      simp [CoreController.StopLoop, CoreController.doShutdown, h, hc]
  · simp [CoreController.StopLoop, h]

/-- Witness for C4 at a concrete running controller and a concrete
stopped controller. -/
theorem stopReleasesOrNoOp_witness :
    V2RayPoint.StopLoop vRunningW VEffects.init =
      ({ vRunningW with IsRunning := false, Vpoint := none, statsManager := none },
       { VEffects.init with closed := [0], emitted := [((0 : Int), "Closed")] }) ∧
    CoreController.StopLoop CoreController.new CEffects.init =
      (CoreController.new, CEffects.init) := by
  have h := stopReleasesOrNoOp vRunningW VEffects.init
    CoreController.new CEffects.init
  refine ⟨(h.1 rfl).trans (by decide), h.2.2.2 rfl⟩

/-- C9 counterexample: the `CoreController` variant's `CheckVersion`
output contains no binding-layer version marker at all — at engine
version "25.3.6" it is exactly "Xray-core v25.3.6", which does not even
contain "Lib", while `CheckVersionX` of the first variant does contain
the binding marker "Lib v27". -/
theorem checkVersionLacksBindingMarker :
    CheckVersion "25.3.6" = "Xray-core v25.3.6" ∧
    strContains "Lib".data (CheckVersion "25.3.6").data = false ∧
    strContains "Lib v27".data (CheckVersionX "25.3.6").data = true := by
  decide

/-- C9 amended: both version queries are pure functions of the engine's
version string with no failure mode; `CheckVersionX` returns the binding
marker "Lib v27" followed by the engine version, while `CheckVersion`
returns only "Xray-core v" followed by the engine version, with no
binding-layer marker of its own. -/
theorem versionQueryShape (v : String) :
    CheckVersionX v = "Lib v27" ++ (", Xray-core v" ++ v) ∧
    (∃ s, CheckVersionX v = s ++ v) ∧
    CheckVersion v = "Xray-core v" ++ v ∧
    (∃ s, CheckVersion v = s ++ v) := by
  refine ⟨?_, ⟨"Lib v27, Xray-core v", rfl⟩, rfl, ⟨"Xray-core v", rfl⟩⟩
  rw [CheckVersionX, ← String.append_assoc]
  rfl

/-- Witness for C9's amended theorem at a concrete engine version. -/
theorem versionQueryShape_witness :
    CheckVersionX "25.3.6" = "Lib v27" ++ (", Xray-core v" ++ "25.3.6") ∧
    CheckVersion "25.3.6" = "Xray-core v" ++ "25.3.6" := by
  have h := versionQueryShape "25.3.6"
  exact ⟨h.1, h.2.2.1⟩

/-- C10: the installed file-reader hook opens the asset bundle entry
named by the base name (all directory components stripped) exactly when
the path's stat reports not-exist, and opens the path itself from the
filesystem otherwise; the base name contains no separator and is a
suffix of the path. -/
theorem fileReaderFallback (statNE : String → Bool) (path : String) :
    (statNE path = true →
      newFileReader statNE path = OpenCall.assetOpen (baseName path)) ∧
    (statNE path = false →
      newFileReader statNE path = OpenCall.osOpen path) ∧
    (∀ c, c ∈ (baseName path).data → c ≠ '/') ∧
    (∃ d, path.data = d ++ (baseName path).data) := by
  refine ⟨fun h => by simp [newFileReader, h],
          fun h => by simp [newFileReader, h], ?_, ?_⟩
  · intro c hc
    have hc' : c ∈ path.data.reverse.takeWhile (fun c => c ≠ '/') := by
      have : (baseName path).data
          = (path.data.reverse.takeWhile (fun c => c ≠ '/')).reverse := rfl
      rw [this, List.mem_reverse] at hc
      exact hc
    have := List.mem_takeWhile_imp hc'
    simpa using this
  · refine ⟨(path.data.reverse.dropWhile (fun c => c ≠ '/')).reverse, ?_⟩
    have h := List.takeWhile_append_dropWhile
      (p := fun c => decide (c ≠ '/')) (l := path.data.reverse)
    calc path.data = (path.data.reverse).reverse := (List.reverse_reverse _).symm
      _ = ((path.data.reverse.takeWhile (fun c => c ≠ '/'))
            ++ (path.data.reverse.dropWhile (fun c => c ≠ '/'))).reverse := by
            rw [h]
      _ = (path.data.reverse.dropWhile (fun c => c ≠ '/')).reverse
            ++ (path.data.reverse.takeWhile (fun c => c ≠ '/')).reverse := by
            rw [List.reverse_append]
      _ = (path.data.reverse.dropWhile (fun c => c ≠ '/')).reverse
            ++ (baseName path).data := rfl

/-- Witness for C10 at a concrete absent path and a concrete present
path. -/
theorem fileReaderFallback_witness :
    newFileReader (fun _ => true) "/sdcard/xray/geoip.dat"
      = OpenCall.assetOpen "geoip.dat" ∧
    newFileReader (fun _ => false) "/sdcard/xray/geoip.dat"
      = OpenCall.osOpen "/sdcard/xray/geoip.dat" := by
  have h := fileReaderFallback (fun _ => true) "/sdcard/xray/geoip.dat"
  have h2 := fileReaderFallback (fun _ => false) "/sdcard/xray/geoip.dat"
  exact ⟨(h.1 rfl).trans (by decide), h2.2.1 rfl⟩

/-- The probe's classification behaviour on every URL the request
builder accepts: it returns a non-negative millisecond value with a nil
error exactly when an instance is present and the GET on the effective
URL (defaulted to the well-known 204 endpoint when empty) produced
status 200 or 204, and otherwise returns the sentinel -1 with a non-nil
error. -/
theorem measureDelayClassifiesWhenRequestBuilds (inst : Option Nat)
    (url : String) (reqOk : String → Bool) (http : String → HttpResult)
    (hreq : reqOk (effectiveUrl url) = true) :
    ((∃ ms : Nat, measureInstDelay inst url reqOk http
        = ProbeOutcome.ret (ms : Int) none) ↔
      (inst.isSome = true ∧ (http (effectiveUrl url)).isGood = true)) ∧
    (¬ (inst.isSome = true ∧ (http (effectiveUrl url)).isGood = true) →
      ∃ e, measureInstDelay inst url reqOk http
        = ProbeOutcome.ret (-1) (some e)) ∧
    (url = "" → effectiveUrl url = defaultPingUrl) := by
  have hlast : url = "" → effectiveUrl url = defaultPingUrl := by
    intro h; subst h; rfl
  cases inst with
  | none =>
    refine ⟨?_, ?_, hlast⟩ <;> simp [measureInstDelay]
  | some i =>
    cases hh : http (effectiveUrl url) with
    | failure e =>
      refine ⟨?_, ?_, hlast⟩ <;>
        simp [measureInstDelay, hreq, hh, HttpResult.isGood]
    | response st ms =>
      by_cases hst : st ≠ 200 ∧ st ≠ 204
      · refine ⟨?_, ?_, hlast⟩ <;>
          simp [measureInstDelay, hreq, hh, hst, HttpResult.isGood,
                hst.1, hst.2]
      · refine ⟨?_, ?_, hlast⟩ <;>
          simp only [measureInstDelay, hreq, if_true, hh, if_neg hst,
                     HttpResult.isGood, Option.isSome_some, true_and]
        · constructor
          · intro _
            rcases Decidable.not_and_iff_or_not.mp hst with h2 | h2 <;>
              simp [Decidable.not_not.mp h2]
          · intro _
            exact ⟨ms, rfl⟩
        · intro hbad
          rcases Decidable.not_and_iff_or_not.mp hst with h2 | h2 <;>
            simp [Decidable.not_not.mp h2] at hbad

/-- C8 (code bug): at a malformed non-empty probe URL the construction
error discarded by `req, _ := http.NewRequestWithContext(...)` leaves
`req` nil, and `c.Do(req)` dereferences the nil request — the probe
crashes instead of returning the -1 sentinel with a non-nil error; with
the same oracles the defaulted empty URL and the nil-instance case still
return normally, so the crash comes from the discarded error alone. -/
theorem measureDelayCrashesOnMalformedUrl :
    measureInstDelay (some 0) "http://example.com/\n" reqOkW pingOkW
      = ProbeOutcome.crash ∧
    measureInstDelay (some 0) "" reqOkW pingOkW
      = ProbeOutcome.ret 42 none ∧
    measureInstDelay none "" reqOkW pingOkW
      = ProbeOutcome.ret (-1) (some "core instance nil") := by
  decide

/-- C5: keyed Start under an already-present key returns the
"point already exist" error, leaves the table (in particular the
pre-existing instance under that key) untouched, starts the new instance
and never closes it, and the pre-existing instance is still stoppable via
keyed Stop. -/
theorem keyedStartDuplicateKey (env : SimpleEnv) (key : Int)
    (s : SimpleState) (j : Nat)
    (hok : env.openRes = Except.ok () ∧ env.parseRes = Except.ok () ∧
      env.newOk = Except.ok ())
    (hpresent : s.pingMap key = some j) :
    (StartSimple env key s).2 = some "point already exist" ∧
    (∀ k, (StartSimple env key s).1.pingMap k = s.pingMap k) ∧
    (StartSimple env key s).1.pingMap key = some j ∧
    (StartSimple env key s).1.started = s.started ++ [s.nextInst] ∧
    (StartSimple env key s).1.closed = s.closed ∧
    (StopSimple key (StartSimple env key s).1).pingMap key = none ∧
    (StopSimple key (StartSimple env key s).1).closed = s.closed ++ [j] := by
  obtain ⟨h1, h2, h3⟩ := hok
  refine ⟨?_, ?_, ?_, ?_, ?_, ?_, ?_⟩ <;>
    simp [StartSimple, StopSimple, h1, h2, h3, hpresent]

/-- Witness for C5 at a concrete state with key 7 occupied. -/
theorem keyedStartDuplicateKey_witness :
    (StartSimple simpleOkW 7 sDupW).2 = some "point already exist" ∧
    (StartSimple simpleOkW 7 sDupW).1.pingMap 7 = some 3 ∧
    (StartSimple simpleOkW 7 sDupW).1.started = [3, 4] ∧
    (StartSimple simpleOkW 7 sDupW).1.closed = [] ∧
    (StopSimple 7 (StartSimple simpleOkW 7 sDupW).1).closed = [3] := by
  have h := keyedStartDuplicateKey simpleOkW 7 sDupW 3 ⟨rfl, rfl, rfl⟩ rfl
  refine ⟨h.1, h.2.2.1, ?_, h.2.2.2.2.1, h.2.2.2.2.2.2⟩
  rw [h.2.2.2.1]
  rfl

/-- C6: keyed Stop removes the entry for the key and closes the instance
that was present, leaving every other key's entry unchanged; Stop of an
absent key returns the state entirely unchanged (and the operation has no
error channel at all). -/
theorem keyedStopRemovesOrNoOp (key : Int) (s : SimpleState) :
    (∀ j, s.pingMap key = some j →
      (StopSimple key s).pingMap key = none ∧
      (StopSimple key s).closed = s.closed ++ [j] ∧
      ∀ k, k ≠ key → (StopSimple key s).pingMap k = s.pingMap k) ∧
    (s.pingMap key = none → StopSimple key s = s) := by
  constructor
  · intro j hj
    refine ⟨?_, ?_, ?_⟩ <;> simp [StopSimple, hj]
    intro k hk
    simp [hk]
  · intro hn
    simp [StopSimple, hn]

/-- Witness for C6: stopping occupied key 7 closes instance 3 and clears
the entry; stopping absent key 5 changes nothing. -/
theorem keyedStopRemovesOrNoOp_witness :
    (StopSimple 7 sDupW).pingMap 7 = none ∧
    (StopSimple 7 sDupW).closed = [3] ∧
    (StopSimple 7 sDupW).pingMap 9 = sDupW.pingMap 9 ∧
    StopSimple 5 sDupW = sDupW := by
  have h := (keyedStopRemovesOrNoOp 7 sDupW).1 3 rfl
  have h2 := (keyedStopRemovesOrNoOp 5 sDupW).2 rfl
  exact ⟨h.1, h.2.1, h.2.2 9 (by decide), h2⟩

/-- C7: with a loadable config and an absent key, keyed Start returns nil
and registers the new instance under the key no matter whether the
engine's own Start succeeded; on engine-startup failure nothing is rolled
back — the failed instance stays registered and is never closed. -/
theorem keyedStartIgnoresStartFailure (env : SimpleEnv) (key : Int)
    (s : SimpleState)
    (hok : env.openRes = Except.ok () ∧ env.parseRes = Except.ok () ∧
      env.newOk = Except.ok ())
    (habsent : s.pingMap key = none) :
    (StartSimple env key s).2 = none ∧
    (StartSimple env key s).1.pingMap key = some s.nextInst ∧
    (StartSimple env key s).1.closed = s.closed ∧
    (env.startOk = false →
      s.nextInst ∈ (StartSimple env key s).1.startFailed ∧
      (StartSimple env key s).1.pingMap key = some s.nextInst) := by
  obtain ⟨h1, h2, h3⟩ := hok
  refine ⟨?_, ?_, ?_, fun hs => ⟨?_, ?_⟩⟩ <;>
    simp [StartSimple, h1, h2, h3, habsent]
  all_goals simp [hs]

/-- Witness for C7: from the initial keyed state, a Start whose engine
startup fails still returns nil and registers instance 0 under key 5. -/
theorem keyedStartIgnoresStartFailure_witness :
    (StartSimple simpleStartFailW 5 SimpleState.init).2 = none ∧
    (StartSimple simpleStartFailW 5 SimpleState.init).1.pingMap 5 = some 0 ∧
    0 ∈ (StartSimple simpleStartFailW 5 SimpleState.init).1.startFailed := by
  have h := keyedStartIgnoresStartFailure simpleStartFailW 5 SimpleState.init
    ⟨rfl, rfl, rfl⟩ rfl
  exact ⟨h.1, h.2.1, (h.2.2.2 rfl).1⟩

/-- C1 counterexample: a Start that fails at engine startup returns an
error and leaves the flag false, but does NOT release the
partially-constructed instance — in both variants the engine reference
and the statistics capability are still set (and the instance is never
closed), contradicting the claim that they are cleared. -/
theorem startFailureRetainsInstance :
    ((CoreController.StartLoop envStartFailW 0 CoreController.new
        CEffects.init).2.2).isSome = true ∧
    (CoreController.StartLoop envStartFailW 0 CoreController.new
        CEffects.init).1.IsRunning = false ∧
    (CoreController.StartLoop envStartFailW 0 CoreController.new
        CEffects.init).1.coreInstance = some 0 ∧
    (CoreController.StartLoop envStartFailW 0 CoreController.new
        CEffects.init).1.statsManager = some 0 ∧
    (V2RayPoint.RunLoop envStartFailW V2RayPoint.new
        VEffects.init).1.Vpoint = some 0 ∧
    (V2RayPoint.RunLoop envStartFailW V2RayPoint.new
        VEffects.init).1.statsManager = some 0 ∧
    (V2RayPoint.RunLoop envStartFailW V2RayPoint.new
        VEffects.init).2.1.closed = [] := by
  decide

/-- C1 amended: a failed Start returns a descriptive error (phase-tagged
in the `CoreController` variant, the raw error in the `V2RayPoint`
variant), leaves the running flag false, closes nothing and emits no
notification; on config-load failure the state is untouched and on
core-init failure the instance reference is nil, but on engine-startup
failure the instance reference and statistics capability remain set. -/
theorem startFailureLeavesState (env : StartEnv) (p : Phase)
    (x : CoreController) (fx : CEffects) (v : V2RayPoint) (fv : VEffects)
    (tunFd : Int) (hp : failPhase env = some p)
    (hx : x.IsRunning = false) (hv : v.IsRunning = false) :
    (∃ m, (CoreController.StartLoop env tunFd x fx).2.2
        = some (phaseTag p ++ m)) ∧
    (CoreController.StartLoop env tunFd x fx).1.IsRunning = false ∧
    (CoreController.StartLoop env tunFd x fx).2.1.closed = fx.closed ∧
    (p = Phase.configLoad → (CoreController.StartLoop env tunFd x fx).1 = x) ∧
    (p = Phase.coreInit → (CoreController.StartLoop env tunFd x fx).1
        = { x with coreInstance := none }) ∧
    (p = Phase.startup → ∃ i, env.newRes = Except.ok i ∧
      (CoreController.StartLoop env tunFd x fx).1
        = { x with coreInstance := some i, statsManager := some i
                   IsRunning := false }) ∧
    ((V2RayPoint.RunLoop env v fv).2.2).isSome = true ∧
    (V2RayPoint.RunLoop env v fv).1.IsRunning = false ∧
    (V2RayPoint.RunLoop env v fv).2.1.emitted = fv.emitted ∧
    (V2RayPoint.RunLoop env v fv).2.1.closed = fv.closed ∧
    (p = Phase.startup → (V2RayPoint.RunLoop env v fv).1.Vpoint ≠ none ∧
      (V2RayPoint.RunLoop env v fv).1.statsManager ≠ none) := by
  obtain ⟨o, pr, nr, sr⟩ := env
  cases o with
  | error e =>
    simp only [failPhase, Option.some.injEq] at hp
    subst hp
    refine ⟨⟨e, ?_⟩, ?_, ?_, ?_, ?_, ?_, ?_, ?_, ?_, ?_, ?_⟩ <;>
      simp [CoreController.StartLoop, CoreController.doStartLoop,
            V2RayPoint.RunLoop, V2RayPoint.pointloop, setEnvVariable,
            hx, hv, phaseTag]
  | ok u =>
    cases pr with
    | error e =>
      simp only [failPhase, Option.some.injEq] at hp
      subst hp
      refine ⟨⟨e, ?_⟩, ?_, ?_, ?_, ?_, ?_, ?_, ?_, ?_, ?_, ?_⟩ <;>
        simp [CoreController.StartLoop, CoreController.doStartLoop,
              V2RayPoint.RunLoop, V2RayPoint.pointloop, setEnvVariable,
              hx, hv, phaseTag]
    | ok u2 =>
      cases nr with
      | error e =>
        simp only [failPhase, Option.some.injEq] at hp
        subst hp
        refine ⟨⟨e, ?_⟩, ?_, ?_, ?_, ?_, ?_, ?_, ?_, ?_, ?_, ?_⟩ <;>
          simp [CoreController.StartLoop, CoreController.doStartLoop,
                V2RayPoint.RunLoop, V2RayPoint.pointloop, setEnvVariable,
                hx, hv, phaseTag]
      | ok i =>
        cases sr with
        | error e =>
          simp only [failPhase, Option.some.injEq] at hp
          subst hp
          refine ⟨⟨e, ?_⟩, ?_, ?_, ?_, ?_, fun _ => ⟨i, rfl, ?_⟩, ?_, ?_,
                  ?_, ?_, ?_⟩ <;>
            simp [CoreController.StartLoop, CoreController.doStartLoop,
                  V2RayPoint.RunLoop, V2RayPoint.pointloop, setEnvVariable,
                  hx, hv, phaseTag]
        | ok u3 =>
          simp only [failPhase] at hp
          cases hp

/-- Witness for C1's amended theorem at a concrete startup failure. -/
theorem startFailureLeavesState_witness :
    (∃ m, (CoreController.StartLoop envStartFailW 0 CoreController.new
        CEffects.init).2.2 = some (phaseTag Phase.startup ++ m)) ∧
    (CoreController.StartLoop envStartFailW 0 CoreController.new
        CEffects.init).1.IsRunning = false := by
  have h := startFailureLeavesState envStartFailW Phase.startup
    CoreController.new CEffects.init V2RayPoint.new VEffects.init 0
    (by decide) rfl rfl
  exact ⟨h.1, h.2.1⟩

/-- Each `CoreController` call preserves "running implies the instance
reference is non-nil". -/
theorem cStep_inv (op : COp) (s : CoreController × CEffects)
    (h : s.1.IsRunning = true → s.1.coreInstance.isSome = true) :
    (cStep op s).1.IsRunning = true →
    (cStep op s).1.coreInstance.isSome = true := by
  cases op with
  | stop =>
    by_cases hr : s.1.IsRunning = true <;>
      simp [cStep, CoreController.StopLoop, CoreController.doShutdown, hr, h]
  | start env fd =>
    obtain ⟨o, pr, nr, sr⟩ := env
    by_cases hr : s.1.IsRunning = true
    · simp [cStep, CoreController.StartLoop, hr, h hr]
    · have hr' : s.1.IsRunning = false := by simpa using hr
      cases o <;> cases pr <;> cases nr <;> cases sr <;>
        simp [cStep, CoreController.StartLoop, CoreController.doStartLoop, hr']

/-- The invariant holds at the end of every `CoreController` trace that
starts in a state satisfying it. -/
theorem cRun_inv_aux (l : List COp) (s : CoreController × CEffects)
    (h : s.1.IsRunning = true → s.1.coreInstance.isSome = true) :
    (l.foldl (fun t op => cStep op t) s).1.IsRunning = true →
    (l.foldl (fun t op => cStep op t) s).1.coreInstance.isSome = true := by
  induction l generalizing s with
  | nil => simpa using h
  | cons op tl ih =>
    simp only [List.foldl_cons]
    exact ih (cStep op s) (cStep_inv op s h)

/-- A `CoreController` call changes the running flag only via
not-running→running on a fully successful Start, or running→not-running
on Stop. -/
theorem cStep_flag (op : COp) (s : CoreController × CEffects)
    (hne : (cStep op s).1.IsRunning ≠ s.1.IsRunning) :
    (s.1.IsRunning = false ∧ (cStep op s).1.IsRunning = true ∧
      ∃ env fd, op = COp.start env fd ∧ env.succeeds = true) ∨
    (s.1.IsRunning = true ∧ (cStep op s).1.IsRunning = false ∧
      op = COp.stop) := by
  cases op with
  | stop =>
    by_cases hr : s.1.IsRunning = true
    · right
      refine ⟨hr, ?_, rfl⟩
      simp [cStep, CoreController.StopLoop, CoreController.doShutdown, hr]
    · exfalso
      apply hne
      simp [cStep, CoreController.StopLoop,
        (by simpa using hr : s.1.IsRunning = false)]
  | start env fd =>
    by_cases hr : s.1.IsRunning = true
    · exfalso
      apply hne
      simp [cStep, CoreController.StartLoop, hr]
    · have hr' : s.1.IsRunning = false := by simpa using hr
      left
      obtain ⟨o, pr, nr, sr⟩ := env
      cases o <;> cases pr <;> cases nr <;> cases sr <;>
        first
        | (exfalso
           apply hne
           simp [cStep, CoreController.StartLoop, CoreController.doStartLoop,
                 hr']
           done)
        | (exact ⟨hr',
            by simp [cStep, CoreController.StartLoop,
                     CoreController.doStartLoop, hr'],
            ⟨_, fd, rfl, by simp [StartEnv.succeeds, failPhase]⟩⟩)

/-- Each `V2RayPoint` call preserves "running implies `Vpoint` is
non-nil". -/
theorem vStep_inv (op : VOp) (s : V2RayPoint × VEffects)
    (h : s.1.IsRunning = true → s.1.Vpoint.isSome = true) :
    (vStep op s).1.IsRunning = true → (vStep op s).1.Vpoint.isSome = true := by
  cases op with
  | stop =>
    by_cases hr : s.1.IsRunning = true <;>
      simp [vStep, V2RayPoint.StopLoop, V2RayPoint.shutdownInit, hr, h]
  | start env =>
    obtain ⟨o, pr, nr, sr⟩ := env
    by_cases hr : s.1.IsRunning = true
    · simp [vStep, V2RayPoint.RunLoop, hr, h hr]
    · have hr' : s.1.IsRunning = false := by simpa using hr
      cases o <;> cases pr <;> cases nr <;> cases sr <;>
        simp [vStep, V2RayPoint.RunLoop, V2RayPoint.pointloop, hr']

/-- The invariant holds at the end of every `V2RayPoint` trace that
starts in a state satisfying it. -/
theorem vRun_inv_aux (l : List VOp) (s : V2RayPoint × VEffects)
    (h : s.1.IsRunning = true → s.1.Vpoint.isSome = true) :
    (l.foldl (fun t op => vStep op t) s).1.IsRunning = true →
    (l.foldl (fun t op => vStep op t) s).1.Vpoint.isSome = true := by
  induction l generalizing s with
  | nil => simpa using h
  | cons op tl ih =>
    simp only [List.foldl_cons]
    exact ih (vStep op s) (vStep_inv op s h)

/-- A `V2RayPoint` call changes the running flag only via the two allowed
transitions. -/
theorem vStep_flag (op : VOp) (s : V2RayPoint × VEffects)
    (hne : (vStep op s).1.IsRunning ≠ s.1.IsRunning) :
    (s.1.IsRunning = false ∧ (vStep op s).1.IsRunning = true ∧
      ∃ env, op = VOp.start env ∧ env.succeeds = true) ∨
    (s.1.IsRunning = true ∧ (vStep op s).1.IsRunning = false ∧
      op = VOp.stop) := by
  cases op with
  | stop =>
    by_cases hr : s.1.IsRunning = true
    · right
      refine ⟨hr, ?_, rfl⟩
      simp [vStep, V2RayPoint.StopLoop, V2RayPoint.shutdownInit, hr]
    · exfalso
      apply hne
      simp [vStep, V2RayPoint.StopLoop,
        (by simpa using hr : s.1.IsRunning = false)]
  | start env =>
    by_cases hr : s.1.IsRunning = true
    · exfalso
      apply hne
      simp [vStep, V2RayPoint.RunLoop, hr]
    · have hr' : s.1.IsRunning = false := by simpa using hr
      left
      obtain ⟨o, pr, nr, sr⟩ := env
      cases o <;> cases pr <;> cases nr <;> cases sr <;>
        first
        | (exfalso
           apply hne
           simp [vStep, V2RayPoint.RunLoop, V2RayPoint.pointloop, hr']
           done)
        | (exact ⟨hr',
            by simp [vStep, V2RayPoint.RunLoop, V2RayPoint.pointloop, hr'],
            ⟨_, rfl, by simp [StartEnv.succeeds, failPhase]⟩⟩)

/-- C2: along every serialized trace of Start/Stop calls on either
controller variant, the running flag is non-nil-instance-backed whenever
it is true, and it changes only via not-running→running (a fully
successful Start) or running→not-running (a Stop). -/
theorem lifecycleFlagInvariant (ops : List COp) (op : COp)
    (vops : List VOp) (vop : VOp) :
    ((cRun ops).1.IsRunning = true →
      (cRun ops).1.coreInstance.isSome = true) ∧
    ((cStep op (cRun ops)).1.IsRunning ≠ (cRun ops).1.IsRunning →
      ((cRun ops).1.IsRunning = false ∧
        (cStep op (cRun ops)).1.IsRunning = true ∧
        ∃ env fd, op = COp.start env fd ∧ env.succeeds = true) ∨
      ((cRun ops).1.IsRunning = true ∧
        (cStep op (cRun ops)).1.IsRunning = false ∧ op = COp.stop)) ∧
    ((vRun vops).1.IsRunning = true → (vRun vops).1.Vpoint.isSome = true) ∧
    ((vStep vop (vRun vops)).1.IsRunning ≠ (vRun vops).1.IsRunning →
      ((vRun vops).1.IsRunning = false ∧
        (vStep vop (vRun vops)).1.IsRunning = true ∧
        ∃ env, vop = VOp.start env ∧ env.succeeds = true) ∨
      ((vRun vops).1.IsRunning = true ∧
        (vStep vop (vRun vops)).1.IsRunning = false ∧ vop = VOp.stop)) :=
  ⟨cRun_inv_aux ops (CoreController.new, CEffects.init) (by simp [CoreController.new]),
   cStep_flag op (cRun ops),
   vRun_inv_aux vops (V2RayPoint.new, VEffects.init) (by simp [V2RayPoint.new]),
   vStep_flag vop (vRun vops)⟩

/-- Witness for C2 on the one-successful-Start trace. -/
theorem lifecycleFlagInvariant_witness :
    (cRun [COp.start envOkW 0]).1.coreInstance.isSome = true ∧
    (vRun [VOp.start envOkW]).1.Vpoint.isSome = true := by
  have h := lifecycleFlagInvariant [COp.start envOkW 0] COp.stop
    [VOp.start envOkW] VOp.stop
  exact ⟨h.1 (by decide), h.2.2.1 (by decide)⟩
